import Mathlib

/-!
# Verification of the refresh-coordination engine of `src/utils/request.js`

This file gives a shallow embedding, in Lean 4, of the refresh coordination
and request-queueing engine implemented in `src/utils/request.js`
(together with the credential-store module `src/utils/cookies.js`), and
proves or refutes the behavioural claims made about it.

Modelling conventions:
* JavaScript objects become Lean structures; `undefined`/`null`-able fields
  become `Option`.
* The single-threaded cooperative scheduling of the host is modelled by
  treating every synchronous (suspension-free) section of the code as one
  atomic step on an explicit state (`SysState`).  In particular the
  check-and-set of the `isRefreshing` flag (lines 182–183 of the source)
  has no `await` between the read and the write, so it is one atomic step.
* Fallible sections (`try`/`catch`) become `Except`-valued computations
  with an explicit handler.
* The transport is abstracted: issuing the refresh network call is
  recorded in a ghost counter `refreshCalls`, and its eventual outcome is
  a parameter of the cycle-completion function `runRefreshCycle`.
* JavaScript truthiness of strings/numbers (empty string and 0 are falsy)
  is made explicit by `jsTruthy` / `jsTruthyN`.
-/

/-- Truthiness of an optional JS string: `undefined` and `""` are falsy. -/
def jsTruthy (o : Option String) : Option String :=
  match o with
  | some s => if s = "" then none else some s
  | none => none

/-- Truthiness of a (non-optional) JS string: `""` is falsy. -/
def jsTruthyS (s : String) : Option String :=
  if s = "" then none else some s

/-- Truthiness of an optional JS number: `undefined` and `0` are falsy. -/
def jsTruthyN (o : Option Nat) : Option Nat :=
  o.bind (fun n => if n = 0 then none else some n)

/-- A request config object (the fields of a RequestDescriptor that the
coordination engine inspects).  `_internalRetry` is the retry marker set on
replayed configs (line 30 of the source). -/
structure ConfigF where
  url : String := ""
  internalRetry : Bool := false
deriving DecidableEq, Repr, Inhabited

/-- A decoded JSON error body, projected onto the fields the code reads:
`message`, `traceId`, `code`. -/
structure ErrBody where
  message : Option String := none
  traceId : Option String := none
  code : Option Nat := none
deriving DecidableEq, Repr, Inhabited

/-- The `data` field of an error response.  A binary (`Blob`) body carries
the result of `data.text()`: `some t` when reading yields text `t`, `none`
when the read itself rejects.  `json b` is a structured body object. -/
inductive RespData where
  | blob (readText : Option String)
  | json (body : ErrBody)
  | other
deriving DecidableEq, Repr, Inhabited

/-- An HTTP response attached to an error (`error.response`). -/
structure RespF where
  status : Option Nat := none
  data : RespData := .other
deriving DecidableEq, Repr, Inhabited

/-- A JS error object, with the fields the engine reads or writes. -/
structure ErrObj where
  name : String := "Error"
  message : String := ""
  status : Option Nat := none
  response : Option RespF := none
  traceId : Option String := none
  handled : Bool := false
  config : Option ConfigF := none
  isUnauthorizedError : Bool := false
  isRefreshingTokenError : Bool := false
  isOfflineError : Bool := false
deriving DecidableEq, Repr, Inhabited

/-- `BaseHttpError` constructor (source lines 58–66): note `handled` is
`true` already at construction (line 63). -/
def mkBaseHttpError (message name : String) (config : Option ConfigF) : ErrObj :=
  { message := message, name := name, config := config, handled := true }

/-- `UnauthorizedError` (source lines 74–78). -/
def mkUnauthorizedError (message : String) (config : Option ConfigF) : ErrObj :=
  { mkBaseHttpError message "UnauthorizedError" config with isUnauthorizedError := true }

/-- `IsRefreshingTokenError` (source lines 80–84). -/
def mkIsRefreshingTokenError (message : String) (config : Option ConfigF) : ErrObj :=
  { mkBaseHttpError message "IsRefreshingTokenError" config with isRefreshingTokenError := true }

/-- The `TypeError` raised by calling `Cookies.set` when the imported
cookies module does not export `set` (strict-mode call of `undefined`). -/
def typeErrorCookiesSet : ErrObj :=
  { name := "TypeError", message := "Cookies.set is not a function" }

/-- `knownErrorMessage` table (source lines 107–113). -/
def knownErrorMessage (status : Nat) : Option String :=
  if status = 401 then some "登入已失效，請重新登入"
  else if status = 408 then some "請求逾時，請稍後再試"
  else if status = 429 then some "操作過於頻繁，請稍候重試"
  else if status = 500 then some "Server 錯誤，請稍後再試"
  else if status = 504 then some "閘道逾時，請稍後再試"
  else none

/-- `MAX_REFRESH_ATTEMPTS` (source line 103). -/
def MAX_REFRESH_ATTEMPTS : Nat := 5

/-- `RESET_INTERVAL` in milliseconds (source line 104). -/
def RESET_INTERVAL : Nat := 60000

/-- Cookie keys from `magicWord` (source lines 87–95). -/
def ACCESS_TOKEN : String := "access_token"

/-- `magicWord.REFRESH_TOKEN`. -/
def REFRESH_TOKEN : String := "refresh_token"

/-- Modelled from the spec: the login-flag token key `TOKEN` imported from
`/@/config/constant`, a file not present under `src/`; the spec calls it
"a separate login-flag token".  Its concrete string value is irrelevant to
every claim; only its identity as a third cookie key is used. -/
def TOKEN : String := "login_flag_token"

/-- The settlement of one queued entry's completion handle. -/
inductive Settle where
  | resolved (v : Nat)
  | rejected (e : ErrObj)
deriving DecidableEq, Repr, Inhabited

/-- Outcome of replaying one config through the axios instance. -/
inductive ReplayRes where
  | ok (v : Nat)
  | err (e : ErrObj)
deriving DecidableEq, Repr, Inhabited

/-- What the response-error interceptor returns to its caller. -/
inductive HandlerOut where
  | reject (e : ErrObj)
  | pendingQueue
deriving DecidableEq, Repr, Inhabited

/-- Result of `JSON.parse` on an error-body text, projected onto what the
code does with it: an object/array value (property access and assignment
work), a primitive or `null` (property *assignment* throws `TypeError` in
strict mode, which ES modules are), or a parse error (throws
`SyntaxError`, caught by the inner `try`). -/
inductive JsParse where
  | obj (b : ErrBody)
  | nonObject
  | parseError
deriving DecidableEq, Repr, Inhabited

/-- Outcome of the `refreshToken()` transport call awaited at line 185:
either a response whose headers may carry the new tokens, or a rejection. -/
inductive RefreshOutcome where
  | success (newAccess newRefresh : Option String)
  | failure (e : ErrObj)
deriving DecidableEq, Repr, Inhabited

/-- The process-wide mutable state of the engine (module-level bindings of
`request.js`), together with ghost observation fields: `refreshCalls`
counts refresh transport calls issued, `dispatched` records the configs
passed to the axios instance during queue drains, `settled` records every
completion-handle settlement, `messages` records notification-sink display
calls, `currentPath`/`pushes` model the router. -/
structure SysState where
  isRefreshing : Bool := false
  isLogout : Bool := false
  refreshAttempts : Nat := 0
  lastResetTime : Nat := 0
  queue : List ConfigF := []
  refreshCalls : Nat := 0
  cookies : List (String × String) := []
  messages : List String := []
  currentPath : String := "/"
  pushes : List String := []
  dispatched : List ConfigF := []
  settled : List (ConfigF × Settle) := []
deriving DecidableEq, Repr, Inhabited

/-- `Cookies.get`: lookup in the cookie jar. -/
def cookieGet (k : String) (cs : List (String × String)) : Option String :=
  (cs.find? (fun p => p.1 = k)).map (fun p => p.2)

/-- `Cookies.remove`. -/
def cookieRemove (k : String) (cs : List (String × String)) : List (String × String) :=
  cs.filter (fun p => p.1 ≠ k)

/-- A cookie `set` operation (overwrite semantics). -/
def cookieSet (k v : String) (cs : List (String × String)) : List (String × String) :=
  cookieRemove k cs ++ [(k, v)]

/-- `errorHandler` (source lines 417–430), non-silent unless `silent`:
returns the (possibly mutated) error and the display log.  An error whose
`handled` flag is already set is returned untouched and nothing is
displayed; otherwise the message is computed from the known-status table
with fallback to the error's own message, displayed once, and the flag is
set. -/
def errorHandler (e : ErrObj) (silent : Bool) (messages : List String) :
    ErrObj × List String :=
  if e.handled then (e, messages)
  else
    let status := e.response.bind RespF.status
    let msg := match status.bind knownErrorMessage with
      | some m => m
      | none => match jsTruthyS e.message with
        | some m => m
        | none => "未知錯誤"
    let messages' := if silent then messages else messages ++ [msg]
    ({ e with message := msg, handled := true }, messages')

/-- Iterated application of `errorHandler` (the same error object flowing
through the handler several times as it propagates). -/
def iterateEH : Nat → ErrObj → List String → ErrObj × List String
  | 0, e, m => (e, m)
  | n + 1, e, m =>
    let r := errorHandler e false m
    iterateEH n r.1 r.2

/-- `resetAuth` (source lines 317–327): removes the access, refresh and
login-flag cookies, sets `isLogout`, hands the error (or a fresh
`UnauthorizedError` when called with `null`) to `errorHandler`, and
navigates to `/login` unless already there. -/
def resetAuthS (err : Option ErrObj) (s : SysState) : SysState :=
  let cs := cookieRemove TOKEN (cookieRemove REFRESH_TOKEN (cookieRemove ACCESS_TOKEN s.cookies))
  let e := match err with
    | some e => e
    | none => mkUnauthorizedError "登入已失效，請重新登入" none
  let r := errorHandler e false s.messages
  let s' := { s with cookies := cs, isLogout := true, messages := r.2 }
  if s'.currentPath ≠ "/login" then
    { s' with currentPath := "/login", pushes := s'.pushes ++ ["/login"] }
  else s'

/-- Lines 146–152 of the error interceptor: if `error.response?.data?.traceId`
is truthy, attach it to the error and suffix the message with it. -/
def attachTraceId (e : ErrObj) : ErrObj :=
  let tid := match e.response with
    | some r => match r.data with
      | .json b => jsTruthy b.traceId
      | _ => none
    | none => none
  match tid with
  | some t =>
    let base := match jsTruthyS e.message with
      | some m => m
      | none => "未知錯誤"
    { e with traceId := some t, message := base ++ " (" ++ t ++ ")" }
  | none => e

/-- The inner `try` body of `parseBlobError` (source lines 352–378), made
explicit as an `Except`: reading the blob text may reject, and assigning
`responseJson.traceId` on a non-object parse result throws `TypeError`
(strict mode); both are caught by the outer `catch`.  `jp` is the
`JSON.parse` oracle. -/
def parseBlobInner (jp : String → JsParse) (e : ErrObj) (resp : RespF)
    (readText : Option String) : Except Unit ErrObj :=
  match readText with
  | none => .error ()
  | some text =>
    let pj : Except Unit ErrBody :=
      match jp text with
      | .parseError => .ok { message := some text }
      | .obj b => .ok b
      | .nonObject => .error ()
    match pj with
    | .error _ => .error ()
    | .ok rj =>
      let tid := (jsTruthy rj.traceId).getD "N/A"
      let rj' := { rj with traceId := some tid }
      let newStatus := match jsTruthyN rj'.code, jsTruthyN resp.status with
        | some c, none => some c
        | _, _ => resp.status
      let base := match jsTruthy rj'.message with
        | some m => m
        | none => match jsTruthyS e.message with
          | some m => m
          | none => "未知錯誤"
      .ok { e with
              response := some { resp with data := .json rj', status := newStatus },
              message := base ++ " (" ++ tid ++ ")",
              traceId := some tid }

/-- `parseBlobError` (source lines 348–387).  A non-blob (or absent)
response body is returned unchanged; an exception anywhere inside is
caught and degrades to the fixed generic Blob-error result. -/
def parseBlobError (jp : String → JsParse) (e : ErrObj) : ErrObj :=
  match e.response with
  | none => e
  | some resp =>
    match resp.data with
    | .blob readText =>
      match parseBlobInner jp e resp readText with
      | .ok e' => e'
      | .error _ =>
        { e with
            response := some { resp with
              data := .json { message := some "未知的 Blob 錯誤", traceId := some "N/A" } },
            message := "未知的 Blob 錯誤 (N/A)",
            traceId := some "N/A" }
    | _ => e

/-- Mark a config for replay: `{ ...task.config, _internalRetry: true }`
(source line 30). -/
def retryMark (c : ConfigF) : ConfigF :=
  { c with internalRetry := true }

/-- The 401 test of the drain loop's `catch`
(`err.status === 401 || err.response?.status === 401`, source line 34). -/
def is401 (e : ErrObj) : Bool :=
  e.status == some 401 || (e.response.bind RespF.status) == some 401

/-- `QueueManager.rejectAll` (source lines 47–50) acting on the system
state: every queued task's handle is rejected with `err`, then the queue
is cleared.  (`isLogout` is not touched by `rejectAll`.) -/
def rejectAllS (err : ErrObj) (s : SysState) : SysState :=
  { s with settled := s.settled ++ s.queue.map (fun c => (c, Settle.rejected err)),
           queue := [] }

/-- The credential-store module shape: `set` is `Option` because the
module actually imported by the coordinator may or may not export it;
calling a missing export throws `TypeError`. -/
structure CookieModule where
  set : Option (String → String → List (String × String) → List (String × String))

/-- The credential-store module `src/utils/cookies.js` as found in the
repository: its default export contains `get` and `remove` but **no**
`set` (source lines 11–14 of `cookies.js`). -/
def srcCookieModule : CookieModule :=
  { set := none }

/-- A hypothetical store module that does export a working `set`. -/
def fullCookieModule : CookieModule :=
  { set := some cookieSet }

/-- The member names of the default export of `src/utils/cookies.js`. -/
def cookiesModuleExports : List String := ["get", "remove"]

/-- The credential-store operations invoked on `Cookies` by the
coordinator `src/utils/request.js` (lines 191–192, 289, 319–321, 331–333). -/
def coordinatorCookieOps : List String := ["get", "set", "remove"]

/-- `checkAndResetCounter` (source lines 399–408).  `Date.now()` is the
`now` argument; natural subtraction agrees with the JS comparison because
a negative difference is below the interval either way. -/
def checkAndResetCounter (now : Nat) (s : SysState) : SysState :=
  if RESET_INTERVAL ≤ now - s.lastResetTime then
    { s with refreshAttempts := 0, lastResetTime := now }
  else s

/-- The 401 branch of the response-error interceptor (source lines
169–203), as one atomic step: rate check and increment, then either the
forced-logout rejection (lines 173–179) or enqueue followed by the
suspension-free check-and-set of `isRefreshing` (lines 181–183); winning
the check-and-set issues the refresh transport call (ghost counter).  The
asynchronous completion of the refresh body is `runRefreshCycle`. -/
def trigger401 (now : Nat) (e : ErrObj) (s : SysState) : SysState × HandlerOut :=
  let s1 := checkAndResetCounter now s
  let s2 := { s1 with refreshAttempts := s1.refreshAttempts + 1 }
  if MAX_REFRESH_ATTEMPTS < s2.refreshAttempts then
    let s3 := { s2 with refreshAttempts := 0, lastResetTime := now }
    let s4 := resetAuthS (some e) s3
    (s4, .reject (mkUnauthorizedError "操作過於頻繁，請重新登入" none))
  else
    let s3 := { s2 with queue := s2.queue ++ [e.config.getD {}] }
    if s3.isRefreshing then (s3, .pendingQueue)
    else ({ s3 with isRefreshing := true, refreshCalls := s3.refreshCalls + 1 }, .pendingQueue)

/-- `handleKnownHttpErrors` (source lines 390–396), with the
`errorHandler` display effect. -/
def handleKnownHttpErrorsS (e : ErrObj) (messages : List String) :
    Bool × ErrObj × List String :=
  match jsTruthyN (e.response.bind RespF.status) with
  | none => (false, e, messages)
  | some st =>
    match knownErrorMessage st with
    | none => (false, e, messages)
    | some _ =>
      let r := errorHandler e false messages
      (true, r.1, r.2)

/-- The response-error interceptor (source lines 143–212) as one atomic
step over the synchronous section of each branch.  `config` and `status`
are captured **before** the blob decode (`const config`/`const status`,
source lines 144–145, with the `|| null` coercion), so the 401 test at
line 169 sees the pre-decode status even when `parseBlobError` later
fills `error.response.status` from a decoded `code` (line 372); the
known-error branch (line 207) reads the response status live, after the
decode.  The branch cascade: already-retried, refresh-in-progress
enqueue, 401/unauthorized trigger, known HTTP errors, default rejection.
(`trigger401` enqueues the error's config, equal to the pre-captured
`config` by `attachTraceId_config`/`parseBlobError_config`.) -/
def responseErrorHandler (jp : String → JsParse) (now : Nat) (e : ErrObj)
    (s : SysState) : SysState × HandlerOut :=
  let config := e.config
  let status := jsTruthyN (e.response.bind RespF.status)
  let e2 := parseBlobError jp (attachTraceId e)
  if (match config with | some c => c.internalRetry | none => false) then
    (resetAuthS (some e2) s, .reject e2)
  else if e2.isRefreshingTokenError then
    ({ s with queue := s.queue ++ [config.getD {}] }, .pendingQueue)
  else if (status == some 401) || e2.isUnauthorizedError then
    trigger401 now e2 s
  else
    let r := handleKnownHttpErrorsS e2 s.messages
    ({ s with messages := r.2.2 }, .reject r.2.1)

/-- A burst of failures processed back-to-back by the interceptor while
the refresh transport call (if any) is still pending: each element is a
`(Date.now(), error)` pair, processed in arrival order. -/
def processBurst (jp : String → JsParse) (burst : List (Nat × ErrObj))
    (s : SysState) : SysState :=
  burst.foldl (fun st p => (responseErrorHandler jp p.1 p.2 st).1) s

/-- An error takes the plain-401 route through the interceptor: its
pre-captured config is not a retry, after enrichment it is not a
refresh-in-progress signal, and its **pre-decode** status is 401 (or the
unauthorized flag is set) — matching the `status` const captured at
source line 145 before `parseBlobError` runs. -/
def plain401 (jp : String → JsParse) (e : ErrObj) : Bool :=
  let e2 := parseBlobError jp (attachTraceId e)
  (match e.config with | some c => !c.internalRetry | none => true) &&
  !e2.isRefreshingTokenError &&
  ((jsTruthyN (e.response.bind RespF.status) == some 401) || e2.isUnauthorizedError)

/-- One replay of a retry-marked config through the axios instance during
a drain, threading the shared module state.  The request-interceptor
pipeline runs first: `checkIsRefreshing` (source lines 226–229) throws
`IsRefreshingTokenError` whenever `isRefreshing` is set — it has **no**
exemption for retry-marked configs — so the replay never reaches the
transport while a refresh is in flight.  (`checkNetwork` is assumed to
pass; the remaining request stages are header/data transforms that cannot
throw, and the response success pipeline's `updateAuth` cookie write is
not modelled: `.ok` abstracts a response without token headers.)  A
thrown or transport failure re-enters the response-error interceptor
(`responseErrorHandler`), whose retry branch runs `resetAuth` — mutating
the shared state the drain loop reads — and rejects.  The
`.pendingQueue` fallbacks are unreachable for retry-marked configs, whose
failures always take the interceptor's retry branch, first in the
cascade. -/
def replayOnce (jp : String → JsParse) (now : Nat)
    (transport : ConfigF → ReplayRes) (rc : ConfigF) (s : SysState) :
    SysState × ReplayRes :=
  if s.isRefreshing then
    let err0 := mkIsRefreshingTokenError "正在刷新 token，請稍後再試" (some rc)
    let r := responseErrorHandler jp now err0 s
    match r.2 with
    | .reject e => (r.1, .err e)
    | .pendingQueue => (r.1, .err err0)
  else
    match transport rc with
    | .ok v => (s, .ok v)
    | .err e0 =>
      let r := responseErrorHandler jp now { e0 with config := some rc } s
      match r.2 with
      | .reject e => (r.1, .err e)
      | .pendingQueue => (r.1, .err e0)

/-- The loop of `QueueManager.resolveAll` (source lines 24–41), threading
the shared state through each replay — so a replay failure's interceptor
pass (which sets the shared `isLogout` via `resetAuth`, line 322) is
visible to the loop's logout check (line 25) for the next entry.
Returns the final state, the configs dispatched to the instance (in
order), and each task's settlement (in order). -/
def drainGo (jp : String → JsParse) (now : Nat) (transport : ConfigF → ReplayRes) :
    List ConfigF → SysState → SysState × List ConfigF × List (ConfigF × Settle)
  | [], s => (s, [], [])
  | c :: rest, s =>
    if s.isLogout then
      let r := drainGo jp now transport rest s
      (r.1, r.2.1,
       (c, .rejected (mkUnauthorizedError "未授權，請重新登入" (some c))) :: r.2.2)
    else
      let rc := retryMark c
      let p := replayOnce jp now transport rc s
      match p.2 with
      | .ok v =>
        let r := drainGo jp now transport rest p.1
        (r.1, rc :: r.2.1, (c, .resolved v) :: r.2.2)
      | .err e =>
        if is401 e then
          let r := drainGo jp now transport rest { p.1 with isLogout := true }
          (r.1, rc :: r.2.1,
           (c, .rejected (mkUnauthorizedError "登入已失效，請重新登入" (some c))) :: r.2.2)
        else
          let r := drainGo jp now transport rest p.1
          (r.1, rc :: r.2.1, (c, .rejected e) :: r.2.2)

/-- `failedQueue.resolveAll(axiosInstance)` (source lines 22–45): drain
the queue sequentially, then `this.clear()` and `isLogout = false`
unconditionally (lines 42–43). -/
def resolveAllS (jp : String → JsParse) (now : Nat)
    (transport : ConfigF → ReplayRes) (s : SysState) : SysState :=
  let r := drainGo jp now transport s.queue s
  { r.1 with dispatched := r.1.dispatched ++ r.2.1,
             settled := r.1.settled ++ r.2.2,
             queue := [], isLogout := false }

/-- Completion of an in-flight refresh cycle: the `try`/`catch`/`finally`
of source lines 184–201, starting from the `await refreshToken()` having
settled with `outcome`.  On success the code reads the new tokens from the
response headers (`|| null`) and calls `Cookies.set` twice before draining
the queue; if the imported cookies module has no `set`, that call throws
`TypeError`, which the `catch` turns into the failure path
(`resetAuth` + `rejectAll`).  The `finally` clears `isRefreshing` in every
case.  (The `JWT.getExpiration` expiry computation only feeds the cookie
expiry option and is not modelled.) -/
def runRefreshCycle (cm : CookieModule) (jp : String → JsParse) (now : Nat)
    (transport : ConfigF → ReplayRes) (outcome : RefreshOutcome)
    (s : SysState) : SysState :=
  let s' := match outcome with
    | .failure err => rejectAllS err (resetAuthS (some err) s)
    | .success newA newR =>
      match cm.set with
      | none =>
        let err := typeErrorCookiesSet
        rejectAllS err (resetAuthS (some err) s)
      | some setF =>
        let cs := setF REFRESH_TOKEN (newR.getD "null") (setF ACCESS_TOKEN (newA.getD "null") s.cookies)
        resolveAllS jp now transport { s with cookies := cs }
  { s' with isRefreshing := false }

/-- Running a list of 401 triggers in sequence, collecting each trigger's
handler outcome. -/
def trigger401Run : List (Nat × ErrObj) → SysState → SysState × List HandlerOut
  | [], s => (s, [])
  | p :: rest, s =>
    let r := trigger401 p.1 p.2 s
    let r' := trigger401Run rest r.1
    (r'.1, r.2 :: r'.2)

/-! ## Concrete fixtures used by witnesses and counterexamples -/

/-- A config named `A`. -/
def cfgA : ConfigF := { url := "/a" }

/-- A config named `B`. -/
def cfgB : ConfigF := { url := "/b" }

/-- A config named `C`. -/
def cfgC : ConfigF := { url := "/c" }

/-- A config named `D`. -/
def cfgD : ConfigF := { url := "/d" }

/-- A config named `E`. -/
def cfgE : ConfigF := { url := "/e" }

/-- A config named `F`. -/
def cfgF : ConfigF := { url := "/f" }

/-- A config named `G`. -/
def cfgG : ConfigF := { url := "/g" }

/-- A config named `H`. -/
def cfgH : ConfigF := { url := "/h" }

/-- A plain HTTP 401 failure (a raw axios error: unhandled, no flags). -/
def err401raw : ErrObj :=
  { message := "Request failed with status code 401",
    response := some { status := some 401 }, config := some cfgA }

/-- A transport oracle that succeeds on every config. -/
def instOkAll : ConfigF → ReplayRes := fun _ => .ok 200

/-- A `JSON.parse` oracle under which every text is unparseable. -/
def jpNoParse : String → JsParse := fun _ => .parseError

/-! ## Helper lemmas about the cookie jar and `resetAuth` -/

/-- Cookie lookup on a cons cell. -/
theorem cookieGet_cons (k : String) (p : String × String) (cs : List (String × String)) :
    cookieGet k (p :: cs) = if p.1 = k then some p.2 else cookieGet k cs := by
  by_cases h : p.1 = k
  · simp [cookieGet, List.find?_cons, h]
  · simp [cookieGet, List.find?_cons, h]

/-- Removing a key makes its lookup absent. -/
theorem cookieGet_remove_self (k : String) (cs : List (String × String)) :
    cookieGet k (cookieRemove k cs) = none := by
  induction cs with
  | nil => rfl
  | cons p rest ih =>
    by_cases h : p.1 = k
    · simpa [cookieRemove, List.filter_cons, h] using ih
    · simpa [cookieRemove, List.filter_cons, h, cookieGet_cons] using ih

/-- Removing another key preserves the absence of a key. -/
theorem cookieGet_remove_of_none (k j : String) :
    ∀ cs : List (String × String),
      cookieGet k cs = none → cookieGet k (cookieRemove j cs) = none := by
  intro cs
  induction cs with
  | nil => intro _; rfl
  | cons p rest ih =>
    intro h
    rw [cookieGet_cons] at h
    by_cases hp : p.1 = k
    · simp [hp] at h
    · rw [if_neg hp] at h
      by_cases hj : p.1 ≠ j
      · simpa [cookieRemove, List.filter_cons, hj, cookieGet_cons, hp] using ih h
      · simpa [cookieRemove, List.filter_cons, hj] using ih h

/-- `resetAuth` leaves the coordination fields alone (it only touches
cookies, the logout flag, the notification log, and the router). -/
theorem resetAuthS_fields (err : Option ErrObj) (s : SysState) :
    (resetAuthS err s).queue = s.queue ∧
    (resetAuthS err s).isRefreshing = s.isRefreshing ∧
    (resetAuthS err s).refreshCalls = s.refreshCalls ∧
    (resetAuthS err s).refreshAttempts = s.refreshAttempts ∧
    (resetAuthS err s).lastResetTime = s.lastResetTime ∧
    (resetAuthS err s).dispatched = s.dispatched ∧
    (resetAuthS err s).settled = s.settled ∧
    (resetAuthS err s).currentPath = "/login" ∧
    (resetAuthS err s).isLogout = true := by
  unfold resetAuthS
  dsimp only
  split
  · exact ⟨rfl, rfl, rfl, rfl, rfl, rfl, rfl, rfl, rfl⟩
  · rename_i h
    exact ⟨rfl, rfl, rfl, rfl, rfl, rfl, rfl, by simpa using h, rfl⟩

/-- `resetAuth` removes all three credential cookies. -/
theorem resetAuthS_clears (err : Option ErrObj) (s : SysState) :
    cookieGet ACCESS_TOKEN (resetAuthS err s).cookies = none ∧
    cookieGet REFRESH_TOKEN (resetAuthS err s).cookies = none ∧
    cookieGet TOKEN (resetAuthS err s).cookies = none := by
  have hc : (resetAuthS err s).cookies =
      cookieRemove TOKEN (cookieRemove REFRESH_TOKEN (cookieRemove ACCESS_TOKEN s.cookies)) := by
    unfold resetAuthS
    dsimp only
    split <;> rfl
  rw [hc]
  refine ⟨?_, ?_, ?_⟩
  · exact cookieGet_remove_of_none _ _ _
      (cookieGet_remove_of_none _ _ _ (cookieGet_remove_self _ _))
  · exact cookieGet_remove_of_none _ _ _ (cookieGet_remove_self _ _)
  · exact cookieGet_remove_self _ _

/-- Handing an unhandled error to `resetAuth` displays exactly one
message. -/
theorem resetAuthS_messages_unhandled (e : ErrObj) (s : SysState)
    (h : e.handled = false) :
    (resetAuthS (some e) s).messages.length = s.messages.length + 1 := by
  have hm : (resetAuthS (some e) s).messages = (errorHandler e false s.messages).2 := by
    unfold resetAuthS
    dsimp only
    split <;> rfl
  rw [hm]
  unfold errorHandler
  rw [h]
  simp

/-! ## Helper lemmas about the rate limiter and the 401 trigger -/

/-- `checkAndResetCounter` only touches the counter and window start. -/
theorem checkAndResetCounter_fields (now : Nat) (s : SysState) :
    (checkAndResetCounter now s).isRefreshing = s.isRefreshing ∧
    (checkAndResetCounter now s).refreshCalls = s.refreshCalls ∧
    (checkAndResetCounter now s).queue = s.queue ∧
    (checkAndResetCounter now s).messages = s.messages ∧
    (checkAndResetCounter now s).cookies = s.cookies ∧
    (checkAndResetCounter now s).settled = s.settled ∧
    (checkAndResetCounter now s).dispatched = s.dispatched ∧
    (checkAndResetCounter now s).isLogout = s.isLogout ∧
    (checkAndResetCounter now s).currentPath = s.currentPath := by
  unfold checkAndResetCounter
  split <;> exact ⟨rfl, rfl, rfl, rfl, rfl, rfl, rfl, rfl, rfl⟩

/-- A counter equal to zero stays zero through the window check. -/
theorem checkAndResetCounter_zero (now : Nat) (s : SysState)
    (h : s.refreshAttempts = 0) :
    (checkAndResetCounter now s).refreshAttempts = 0 := by
  unfold checkAndResetCounter
  split <;> simp [h]

/-- If the window has not elapsed, the counter check is a no-op. -/
theorem checkAndResetCounter_in_window (now : Nat) (s : SysState)
    (h : now - s.lastResetTime < RESET_INTERVAL) :
    checkAndResetCounter now s = s := by
  unfold checkAndResetCounter
  rw [if_neg (by omega)]

/-- The rate-limit-exceeded branch of the 401 trigger, explicitly. -/
theorem trigger401_over (now : Nat) (e : ErrObj) (s : SysState)
    (h : MAX_REFRESH_ATTEMPTS < (checkAndResetCounter now s).refreshAttempts + 1) :
    trigger401 now e s =
      (resetAuthS (some e)
        { checkAndResetCounter now s with refreshAttempts := 0, lastResetTime := now },
       .reject (mkUnauthorizedError "操作過於頻繁，請重新登入" none)) := by
  unfold trigger401
  dsimp only
  rw [if_pos h]

/-- The under-the-limit branch of the 401 trigger, field by field: the
trigger enqueues and, exactly when the state was `Idle`, wins the
suspension-free check-and-set and issues one refresh transport call. -/
theorem trigger401_under_fields (now : Nat) (e : ErrObj) (s : SysState)
    (h : (checkAndResetCounter now s).refreshAttempts + 1 ≤ MAX_REFRESH_ATTEMPTS) :
    (trigger401 now e s).2 = .pendingQueue ∧
    (trigger401 now e s).1.isRefreshing = true ∧
    (trigger401 now e s).1.refreshCalls =
      s.refreshCalls + (if s.isRefreshing then 0 else 1) ∧
    (trigger401 now e s).1.queue = s.queue ++ [e.config.getD {}] ∧
    (trigger401 now e s).1.refreshAttempts =
      (checkAndResetCounter now s).refreshAttempts + 1 ∧
    (trigger401 now e s).1.lastResetTime = (checkAndResetCounter now s).lastResetTime ∧
    (trigger401 now e s).1.messages = s.messages ∧
    (trigger401 now e s).1.cookies = s.cookies ∧
    (trigger401 now e s).1.settled = s.settled ∧
    (trigger401 now e s).1.dispatched = s.dispatched ∧
    (trigger401 now e s).1.currentPath = s.currentPath := by
  obtain ⟨h1, h2, h3, h4, h5, h6, h7, h8, h9⟩ := checkAndResetCounter_fields now s
  unfold trigger401
  dsimp only
  rw [if_neg (by omega)]
  by_cases hr : s.isRefreshing
  · rw [if_pos (by simpa [h1] using hr)]
    simp [h1, h2, h3, h4, h5, h6, h7, h9, hr]
  · rw [if_neg (by simpa [h1] using hr)]
    simp [h1, h2, h3, h4, h5, h6, h7, h9, hr]

/-- A plain-401 failure takes exactly the `trigger401` route through the
response-error interceptor. -/
theorem plain401_route (jp : String → JsParse) (e : ErrObj)
    (h : plain401 jp e = true) (now : Nat) (s : SysState) :
    responseErrorHandler jp now e s =
      trigger401 now (parseBlobError jp (attachTraceId e)) s := by
  unfold plain401 at h
  rw [Bool.and_eq_true, Bool.and_eq_true] at h
  obtain ⟨⟨h1, h2⟩, h3⟩ := h
  unfold responseErrorHandler
  dsimp only
  rw [if_neg ?hc1, if_neg ?hc2, if_pos ?hc3]
  case hc1 =>
    intro hcon
    cases hcfg : e.config with
    | none => rw [hcfg] at hcon; exact Bool.false_ne_true hcon
    | some c =>
      rw [hcfg] at hcon h1
      simp only [Bool.not_eq_true'] at h1
      simp [h1] at hcon
  case hc2 =>
    intro hcon
    rw [Bool.not_eq_true'] at h2
    rw [h2] at hcon
    exact Bool.false_ne_true hcon
  case hc3 => exact h3

/-- While a refresh is already in flight, a 401 trigger never issues a
second refresh transport call and the state stays `Refreshing`. -/
theorem trigger401_keeps_refreshing (now : Nat) (e : ErrObj) (s : SysState)
    (h : s.isRefreshing = true) :
    (trigger401 now e s).1.isRefreshing = true ∧
    (trigger401 now e s).1.refreshCalls = s.refreshCalls := by
  by_cases hover : MAX_REFRESH_ATTEMPTS < (checkAndResetCounter now s).refreshAttempts + 1
  · rw [trigger401_over now e s hover]
    obtain ⟨hq, hr, hc, _⟩ := resetAuthS_fields (some e)
      { checkAndResetCounter now s with refreshAttempts := 0, lastResetTime := now }
    obtain ⟨k1, k2, _⟩ := checkAndResetCounter_fields now s
    constructor
    · rw [hr]; simpa [k1] using h
    · rw [hc]; simpa using k2
  · obtain ⟨_, h2, h3, _⟩ := trigger401_under_fields now e s (by omega)
    refine ⟨h2, ?_⟩
    rw [h3, h]
    simp

/-- Processing a plain-401 burst while a refresh is already in flight
issues no further refresh transport call. -/
theorem processBurst_refreshing (jp : String → JsParse) :
    ∀ (burst : List (Nat × ErrObj)) (s : SysState),
      (∀ p ∈ burst, plain401 jp p.2 = true) → s.isRefreshing = true →
      (processBurst jp burst s).isRefreshing = true ∧
      (processBurst jp burst s).refreshCalls = s.refreshCalls := by
  intro burst
  induction burst with
  | nil => intro s _ h; exact ⟨h, rfl⟩
  | cons p rest ih =>
    intro s hall h
    have hp : plain401 jp p.2 = true := hall p (List.mem_cons_self p rest)
    have hrest : ∀ q ∈ rest, plain401 jp q.2 = true :=
      fun q hq => hall q (List.mem_cons_of_mem p hq)
    have hstep : (responseErrorHandler jp p.1 p.2 s).1 =
        (trigger401 p.1 (parseBlobError jp (attachTraceId p.2)) s).1 := by
      rw [plain401_route jp p.2 hp p.1 s]
    obtain ⟨k1, k2⟩ := trigger401_keeps_refreshing p.1
      (parseBlobError jp (attachTraceId p.2)) s h
    have : processBurst jp (p :: rest) s =
        processBurst jp rest (responseErrorHandler jp p.1 p.2 s).1 := rfl
    rw [this, hstep]
    obtain ⟨m1, m2⟩ := ih _ hrest k1
    exact ⟨m1, by rw [m2, k2]⟩

/-- Processing a plain-401 burst from `Idle` issues at most one refresh
transport call (single-flight upper bound). -/
theorem processBurst_at_most_one (jp : String → JsParse) :
    ∀ (burst : List (Nat × ErrObj)) (s : SysState),
      (∀ p ∈ burst, plain401 jp p.2 = true) → s.isRefreshing = false →
      (processBurst jp burst s).refreshCalls ≤ s.refreshCalls + 1 := by
  intro burst
  induction burst with
  | nil => intro s _ _; simp [processBurst]
  | cons p rest ih =>
    intro s hall h
    have hp : plain401 jp p.2 = true := hall p (List.mem_cons_self p rest)
    have hrest : ∀ q ∈ rest, plain401 jp q.2 = true :=
      fun q hq => hall q (List.mem_cons_of_mem p hq)
    have hstep : processBurst jp (p :: rest) s =
        processBurst jp rest (trigger401 p.1 (parseBlobError jp (attachTraceId p.2)) s).1 := by
      show processBurst jp rest (responseErrorHandler jp p.1 p.2 s).1 = _
      rw [plain401_route jp p.2 hp p.1 s]
    rw [hstep]
    set e' := parseBlobError jp (attachTraceId p.2) with he'
    by_cases hover : MAX_REFRESH_ATTEMPTS < (checkAndResetCounter p.1 s).refreshAttempts + 1
    · have heq := trigger401_over p.1 e' s hover
      obtain ⟨_, hr, hc, _⟩ := resetAuthS_fields (some e')
        { checkAndResetCounter p.1 s with refreshAttempts := 0, lastResetTime := p.1 }
      obtain ⟨k1, k2, _⟩ := checkAndResetCounter_fields p.1 s
      have hrf : (trigger401 p.1 e' s).1.isRefreshing = false := by
        rw [heq]; dsimp only; rw [hr]; simpa [k1] using h
      have hcf : (trigger401 p.1 e' s).1.refreshCalls = s.refreshCalls := by
        rw [heq]; dsimp only; rw [hc]; simpa using k2
      have := ih _ hrest hrf
      omega
    · obtain ⟨_, h2, h3, _⟩ := trigger401_under_fields p.1 e' s (by omega)
      obtain ⟨m1, m2⟩ := processBurst_refreshing jp rest _ hrest h2
      rw [m2, h3, h]
      simp

/-- Processing a nonempty plain-401 burst from `Idle` with a fresh rate
window issues exactly one refresh transport call. -/
theorem processBurst_exactly_one (jp : String → JsParse)
    (p : Nat × ErrObj) (rest : List (Nat × ErrObj)) (s : SysState)
    (hall : ∀ q ∈ p :: rest, plain401 jp q.2 = true)
    (hidle : s.isRefreshing = false) (hfresh : s.refreshAttempts = 0) :
    (processBurst jp (p :: rest) s).refreshCalls = s.refreshCalls + 1 := by
  have hp : plain401 jp p.2 = true := hall p (List.mem_cons_self p rest)
  have hrest : ∀ q ∈ rest, plain401 jp q.2 = true :=
    fun q hq => hall q (List.mem_cons_of_mem p hq)
  have hstep : processBurst jp (p :: rest) s =
      processBurst jp rest (trigger401 p.1 (parseBlobError jp (attachTraceId p.2)) s).1 := by
    show processBurst jp rest (responseErrorHandler jp p.1 p.2 s).1 = _
    rw [plain401_route jp p.2 hp p.1 s]
  rw [hstep]
  set e' := parseBlobError jp (attachTraceId p.2) with he'
  have hz : (checkAndResetCounter p.1 s).refreshAttempts = 0 :=
    checkAndResetCounter_zero p.1 s hfresh
  have hle : (checkAndResetCounter p.1 s).refreshAttempts + 1 ≤ MAX_REFRESH_ATTEMPTS := by
    rw [hz]; decide
  obtain ⟨_, h2, h3, _⟩ := trigger401_under_fields p.1 e' s hle
  obtain ⟨m1, m2⟩ := processBurst_refreshing jp rest _ hrest h2
  rw [m2, h3, hidle]
  simp

/-- Running triggers inside an unelapsed window while under the ceiling:
every trigger returns a pending handle, the counter increments once per
trigger, and the window start never moves. -/
theorem trigger401Run_in_window :
    ∀ (ts : List (Nat × ErrObj)) (s : SysState),
      (∀ p ∈ ts, p.1 - s.lastResetTime < RESET_INTERVAL) →
      s.refreshAttempts + ts.length ≤ MAX_REFRESH_ATTEMPTS →
      (trigger401Run ts s).1.refreshAttempts = s.refreshAttempts + ts.length ∧
      (trigger401Run ts s).1.lastResetTime = s.lastResetTime ∧
      (∀ o ∈ (trigger401Run ts s).2, o = HandlerOut.pendingQueue) := by
  intro ts
  induction ts with
  | nil => intro s _ _; exact ⟨rfl, rfl, by intro o ho; simp [trigger401Run] at ho⟩
  | cons p rest ih =>
    intro s hwin hle
    have hw : p.1 - s.lastResetTime < RESET_INTERVAL := hwin p (List.mem_cons_self p rest)
    have hcr : checkAndResetCounter p.1 s = s := checkAndResetCounter_in_window p.1 s hw
    have hunder : (checkAndResetCounter p.1 s).refreshAttempts + 1 ≤ MAX_REFRESH_ATTEMPTS := by
      rw [hcr]
      have := List.length_cons p rest ▸ hle
      omega
    obtain ⟨o1, _, _, _, a1, a2, _⟩ := trigger401_under_fields p.1 p.2 s hunder
    have hstep : trigger401Run (p :: rest) s =
        ((trigger401Run rest (trigger401 p.1 p.2 s).1).1,
         (trigger401 p.1 p.2 s).2 :: (trigger401Run rest (trigger401 p.1 p.2 s).1).2) := rfl
    set s' := (trigger401 p.1 p.2 s).1 with hs'
    have ha1 : s'.refreshAttempts = s.refreshAttempts + 1 := by rw [a1, hcr]
    have ha2 : s'.lastResetTime = s.lastResetTime := by rw [a2, hcr]
    have hwin' : ∀ q ∈ rest, q.1 - s'.lastResetTime < RESET_INTERVAL := by
      intro q hq
      rw [ha2]
      exact hwin q (List.mem_cons_of_mem p hq)
    have hle' : s'.refreshAttempts + rest.length ≤ MAX_REFRESH_ATTEMPTS := by
      rw [ha1]
      have := List.length_cons p rest ▸ hle
      omega
    obtain ⟨r1, r2, r3⟩ := ih s' hwin' hle'
    rw [hstep]
    refine ⟨?_, ?_, ?_⟩
    · dsimp only
      rw [r1, ha1, List.length_cons]
      omega
    · dsimp only
      rw [r2, ha2]
    · intro o ho
      dsimp only at ho
      rcases List.mem_cons.mp ho with h | h
      · rw [h, o1]
      · exact r3 o h

/-- `attachTraceId` never changes the request config. -/
theorem attachTraceId_config (e : ErrObj) : (attachTraceId e).config = e.config := by
  unfold attachTraceId
  dsimp only
  split <;> rfl

/-- `attachTraceId` never changes the `handled` flag or the flow flags. -/
theorem attachTraceId_flags (e : ErrObj) :
    (attachTraceId e).isRefreshingTokenError = e.isRefreshingTokenError := by
  unfold attachTraceId
  dsimp only
  split <;> rfl

/-- The inner blob-decoding computation never changes the request config. -/
theorem parseBlobInner_config (jp : String → JsParse) (e : ErrObj) (resp : RespF) :
    ∀ (readText : Option String) (e' : ErrObj),
      parseBlobInner jp e resp readText = .ok e' → e'.config = e.config := by
  intro readText e' h
  cases readText with
  | none => simp [parseBlobInner] at h
  | some text =>
    simp only [parseBlobInner] at h
    cases hjp : jp text with
    | parseError =>
      simp only [hjp, Except.ok.injEq] at h
      rw [← h]
    | obj b =>
      simp only [hjp, Except.ok.injEq] at h
      rw [← h]
    | nonObject =>
      simp [hjp] at h

/-- `parseBlobError` never changes the request config. -/
theorem parseBlobError_config (jp : String → JsParse) (e : ErrObj) :
    (parseBlobError jp e).config = e.config := by
  unfold parseBlobError
  cases hresp : e.response with
  | none => rfl
  | some resp =>
    dsimp only
    cases hdata : resp.data with
    | blob rt =>
      cases hinner : parseBlobInner jp e resp rt with
      | ok e' =>
        dsimp only
        rw [hinner]
        exact parseBlobInner_config jp e resp rt e' hinner
      | error u =>
        dsimp only
        rw [hinner]
    | json b => rfl
    | other => rfl

/-- `rejectAll` only settles and clears the queue. -/
theorem rejectAllS_fields (err : ErrObj) (s : SysState) :
    (rejectAllS err s).queue = [] ∧
    (rejectAllS err s).isRefreshing = s.isRefreshing ∧
    (rejectAllS err s).messages = s.messages ∧
    (rejectAllS err s).cookies = s.cookies ∧
    (rejectAllS err s).currentPath = s.currentPath ∧
    (rejectAllS err s).refreshCalls = s.refreshCalls ∧
    (rejectAllS err s).settled = s.settled ++ s.queue.map (fun c => (c, Settle.rejected err)) := by
  exact ⟨rfl, rfl, rfl, rfl, rfl, rfl, rfl⟩

/-! ## Helper lemmas about the queue drain -/

/-- `attachTraceId` and `parseBlobError` leave an error that has no
attached response untouched. -/
theorem enrich_no_response (jp : String → JsParse) (e : ErrObj)
    (h : e.response = none) : parseBlobError jp (attachTraceId e) = e := by
  have h1 : attachTraceId e = e := by
    unfold attachTraceId
    rw [h]
  rw [h1]
  unfold parseBlobError
  rw [h]

/-- The retry branch of the interceptor (source lines 158–161): a failure
whose pre-captured config carries `_internalRetry` is handed to
`resetAuth` and rejected, before any enqueue branch can run. -/
theorem handler_retry (jp : String → JsParse) (now : Nat) (e : ErrObj)
    (s : SysState) (c : ConfigF) (hc : e.config = some c)
    (hr : c.internalRetry = true) :
    responseErrorHandler jp now e s =
      (resetAuthS (some (parseBlobError jp (attachTraceId e))) s,
       .reject (parseBlobError jp (attachTraceId e))) := by
  have hcond : (match e.config with
      | some c => c.internalRetry | none => false) = true := by
    rw [hc]
    exact hr
  unfold responseErrorHandler
  dsimp only
  rw [if_pos hcond]

/-- During a drain the refresh flag is still set (the `finally` at source
line 200 runs only after `resolveAll` returns), so every replay fails
`checkIsRefreshing`; the rejection's interceptor pass takes the retry
branch, running `resetAuth` on the shared state. -/
theorem replayOnce_refreshing (jp : String → JsParse) (now : Nat)
    (transport : ConfigF → ReplayRes) (rc : ConfigF) (s : SysState)
    (h : s.isRefreshing = true) (hr : rc.internalRetry = true) :
    replayOnce jp now transport rc s =
      (resetAuthS (some (mkIsRefreshingTokenError "正在刷新 token，請稍後再試" (some rc))) s,
       .err (mkIsRefreshingTokenError "正在刷新 token，請稍後再試" (some rc))) := by
  have hid : parseBlobError jp (attachTraceId
      (mkIsRefreshingTokenError "正在刷新 token，請稍後再試" (some rc))) =
      mkIsRefreshingTokenError "正在刷新 token，請稍後再試" (some rc) :=
    enrich_no_response jp _ rfl
  unfold replayOnce
  rw [if_pos h]
  dsimp only
  rw [handler_retry jp now _ s rc rfl hr]
  rw [hid]

/-- In logout mode the drain dispatches nothing, leaves the shared state
untouched, and rejects every task with a fresh `UnauthorizedError`
(source lines 25–28). -/
theorem drainGo_logout (jp : String → JsParse) (now : Nat)
    (transport : ConfigF → ReplayRes) :
    ∀ (q : List ConfigF) (s : SysState), s.isLogout = true →
      drainGo jp now transport q s =
        (s, [], q.map (fun c =>
          (c, Settle.rejected (mkUnauthorizedError "未授權，請重新登入" (some c))))) := by
  intro q
  induction q with
  | nil => intro s _; rfl
  | cons c rest ih =>
    intro s h
    simp [drainGo, h, ih s h]

/-- The dispatched sequence is always an initial segment of the
retry-marked enqueue order, whatever the transport and shared state do. -/
theorem drainGo_dispatch_initial_seg (jp : String → JsParse) (now : Nat)
    (transport : ConfigF → ReplayRes) :
    ∀ (q : List ConfigF) (s : SysState),
      ∃ t, q.map retryMark = (drainGo jp now transport q s).2.1 ++ t := by
  intro q
  induction q with
  | nil => intro s; exact ⟨[], rfl⟩
  | cons c rest ih =>
    intro s
    by_cases h : s.isLogout
    · rw [drainGo_logout jp now transport (c :: rest) s h]
      exact ⟨(c :: rest).map retryMark, rfl⟩
    · have hl : s.isLogout = false := by
        revert h
        cases s.isLogout <;> simp
      simp only [drainGo, hl]
      cases hres : (replayOnce jp now transport (retryMark c) s).2 with
      | ok v =>
        obtain ⟨t, ht⟩ := ih (replayOnce jp now transport (retryMark c) s).1
        exact ⟨t, by simp [hres, List.map_cons, ht]⟩
      | err e =>
        by_cases h401 : is401 e
        · obtain ⟨t, ht⟩ :=
            ih { (replayOnce jp now transport (retryMark c) s).1 with isLogout := true }
          exact ⟨t, by simp [hres, h401, List.map_cons, ht]⟩
        · obtain ⟨t, ht⟩ := ih (replayOnce jp now transport (retryMark c) s).1
          exact ⟨t, by simp [hres, h401, List.map_cons, ht]⟩

/-- Every task's own completion handle is settled exactly once, in
enqueue order: the settlement list projects back to the queue. -/
theorem drainGo_settled_fst (jp : String → JsParse) (now : Nat)
    (transport : ConfigF → ReplayRes) :
    ∀ (q : List ConfigF) (s : SysState),
      (drainGo jp now transport q s).2.2.map Prod.fst = q := by
  intro q
  induction q with
  | nil => intro s; rfl
  | cons c rest ih =>
    intro s
    by_cases h : s.isLogout
    · rw [drainGo_logout jp now transport (c :: rest) s h]
      have hcomp : (Prod.fst ∘ fun c : ConfigF =>
          (c, Settle.rejected (mkUnauthorizedError "未授權，請重新登入" (some c)))) = id := by
        funext x
        rfl
      simp [hcomp]
    · have hl : s.isLogout = false := by
        revert h
        cases s.isLogout <;> simp
      simp only [drainGo, hl]
      cases hres : (replayOnce jp now transport (retryMark c) s).2 with
      | ok v => simp [hres, ih]
      | err e =>
        by_cases h401 : is401 e
        · simp [hres, h401, ih]
        · simp [hres, h401, ih]

/-- The program's drain, characterised: with the refresh flag still set
and the logout flag clear, the first entry alone is dispatched, fails the
in-flight-refresh check, and is rejected with that failure; its
interceptor pass runs `resetAuth`, so every remaining entry is rejected
with an `UnauthorizedError` without being dispatched. -/
theorem drainGo_refreshing (jp : String → JsParse) (now : Nat)
    (transport : ConfigF → ReplayRes) (c : ConfigF) (rest : List ConfigF)
    (s : SysState) (hr : s.isRefreshing = true) (hl : s.isLogout = false) :
    drainGo jp now transport (c :: rest) s =
      (resetAuthS (some (mkIsRefreshingTokenError "正在刷新 token，請稍後再試"
          (some (retryMark c)))) s,
       [retryMark c],
       (c, Settle.rejected (mkIsRefreshingTokenError "正在刷新 token，請稍後再試"
          (some (retryMark c)))) ::
         rest.map (fun c' =>
           (c', Settle.rejected (mkUnauthorizedError "未授權，請重新登入" (some c'))))) := by
  have hro := replayOnce_refreshing jp now transport (retryMark c) s hr rfl
  have hlog : (resetAuthS (some (mkIsRefreshingTokenError "正在刷新 token，請稍後再試"
      (some (retryMark c)))) s).isLogout = true :=
    (resetAuthS_fields _ s).2.2.2.2.2.2.2.2
  have h401 : is401 (mkIsRefreshingTokenError "正在刷新 token，請稍後再試"
      (some (retryMark c))) = false := rfl
  simp [drainGo, hl, hro, h401, drainGo_logout jp now transport rest _ hlog]

/-! ## Claim theorems -/

/-- Claim C1, amended.  For every burst of plain Unauthorized (401)
failures processed while the refresh state is `Idle`, **at most one**
refresh call is issued to the transport — the check of `isRefreshing` and
its setting are one suspension-free step, so no two failures can both
start a refresh — and **exactly one** is issued whenever the rate-limit
counter is fresh (zero) at the start of the burst.  (The claim's
unqualified "exactly one" fails when the counter is already at the
ceiling: see the counterexample.) -/
theorem C1_single_flight (jp : String → JsParse) (burst : List (Nat × ErrObj))
    (s : SysState) (hidle : s.isRefreshing = false)
    (hall : ∀ p ∈ burst, plain401 jp p.2 = true) :
    (processBurst jp burst s).refreshCalls ≤ s.refreshCalls + 1 ∧
    (s.refreshAttempts = 0 → burst ≠ [] →
      (processBurst jp burst s).refreshCalls = s.refreshCalls + 1) := by
  refine ⟨processBurst_at_most_one jp burst s hall hidle, ?_⟩
  intro hfresh hne
  cases burst with
  | nil => exact absurd rfl hne
  | cons p rest => exact processBurst_exactly_one jp p rest s hall hidle hfresh

/-- A concrete burst of three 401 failures. -/
def burstW : List (Nat × ErrObj) := [(10, err401raw), (11, err401raw), (12, err401raw)]

/-- Witness for C1: a burst of three 401 failures from the initial state
issues exactly one refresh transport call. -/
theorem C1_single_flight_witness :
    ((({} : SysState).isRefreshing = false ∧ (∀ p ∈ burstW, plain401 jpNoParse p.2 = true)) ∧
     (processBurst jpNoParse burstW ({} : SysState)).refreshCalls = ({} : SysState).refreshCalls + 1) :=
  ⟨⟨by decide, by decide⟩,
   (C1_single_flight jpNoParse burstW {} (by decide) (by decide)).2 (by decide) (by decide)⟩

/-- A state in which the rate counter already sits at the ceiling inside
the current window (reachable: five 401 triggers arrive during one
refresh cycle, the cycle completes back to `Idle`, and less than a minute
has passed). -/
def sC1 : SysState := { refreshAttempts := 5 }

/-- Counterexample to C1 as stated: a burst of N = 1 Unauthorized
failures arriving while the refresh state is `Idle` issues **zero**
refresh transport calls — the rate limiter forces logout instead — so
"exactly one refresh call" does not hold for every burst. -/
theorem C1_single_flight_counterexample :
    sC1.isRefreshing = false ∧
    (processBurst jpNoParse [(1000, err401raw)] sC1).refreshCalls = 0 ∧
    (processBurst jpNoParse [(1000, err401raw)] sC1).refreshCalls ≠ 1 := by
  decide

/-- Claim C2, amended.  The drain processes entries strictly in enqueue
order, one at a time, each entry settled before the next is considered;
the dispatched sequence is always an initial segment of the retry-marked
enqueue order.  But the program's drain runs while the refresh flag is
still set (the `finally` at source line 200 fires only after
`resolveAll` returns) and the in-flight-refresh check has no retry
exemption, so with the logout flag clear exactly the **first** entry is
dispatched — its replay fails the check and the interceptor's retry
branch sets the shared logout flag — and with the logout flag already
set nothing is dispatched.  (The claim's "dispatch order during drain
equals the enqueue order [A,B,C]" fails: see the counterexample.) -/
theorem C2_fifo_sequential_drain (jp : String → JsParse) (now : Nat)
    (transport : ConfigF → ReplayRes) (q : List ConfigF) (s : SysState) :
    (∃ t, q.map retryMark = (drainGo jp now transport q s).2.1 ++ t) ∧
    (s.isLogout = true → (drainGo jp now transport q s).2.1 = []) ∧
    (s.isRefreshing = true → s.isLogout = false → ∀ c rest, q = c :: rest →
      (drainGo jp now transport q s).2.1 = [retryMark c]) := by
  refine ⟨drainGo_dispatch_initial_seg jp now transport q s, ?_, ?_⟩
  · intro h
    rw [drainGo_logout jp now transport q s h]
  · intro hr hl c rest hq
    subst hq
    rw [drainGo_refreshing jp now transport c rest s hr hl]

/-- Witness for C2: the program's drain situation — refresh flag set,
logout flag clear, queue [A,B,C] — dispatches exactly the first entry,
even though the transport would have succeeded on every replay. -/
theorem C2_fifo_sequential_drain_witness :
    (({ isRefreshing := true } : SysState).isRefreshing = true ∧
     ({ isRefreshing := true } : SysState).isLogout = false) ∧
    (drainGo jpNoParse 0 instOkAll [cfgA, cfgB, cfgC]
      { isRefreshing := true }).2.1 = [retryMark cfgA] :=
  ⟨⟨rfl, rfl⟩,
   (C2_fifo_sequential_drain jpNoParse 0 instOkAll [cfgA, cfgB, cfgC]
      { isRefreshing := true }).2.2 rfl rfl cfgA [cfgB, cfgC] rfl⟩

/-- Counterexample to C2 as stated: with enqueue order [A,B,C], the drain
taken in the program's actual state (refresh flag still set) dispatches
only A, even with a transport that would succeed on every replay — the
dispatch order is not [A,B,C]. -/
theorem C2_fifo_sequential_drain_counterexample :
    (drainGo jpNoParse 0 instOkAll [cfgA, cfgB, cfgC]
      { isRefreshing := true }).2.1 = [retryMark cfgA] ∧
    (drainGo jpNoParse 0 instOkAll [cfgA, cfgB, cfgC]
      { isRefreshing := true }).2.1 ≠ [cfgA, cfgB, cfgC].map retryMark := by
  decide

/-- Claim C7, amended.  Each replay's outcome settles exactly that
entry's own completion handle: settlements are one-to-one with the
queue, in enqueue order.  But one entry's replay failure **does** prevent
the subsequent entries from being replayed: the failed replay's
interceptor pass runs `resetAuth`, which sets the shared logout flag read
by the drain loop, so every later entry is rejected with an Unauthorized
failure without being dispatched.  In the program's drain (refresh flag
still set) this happens deterministically at the first entry, which is
itself rejected with the in-flight-refresh failure.  (The claim's "one
entry's replay failure never prevents the subsequent entries from being
replayed" fails: see the counterexample.) -/
theorem C7_drain_isolation (jp : String → JsParse) (now : Nat)
    (transport : ConfigF → ReplayRes) (q : List ConfigF) (s : SysState) :
    (drainGo jp now transport q s).2.2.map Prod.fst = q ∧
    (drainGo jp now transport q s).2.2.length = q.length ∧
    (s.isRefreshing = true → s.isLogout = false → ∀ c rest, q = c :: rest →
      (drainGo jp now transport q s).2.2 =
        (c, Settle.rejected (mkIsRefreshingTokenError "正在刷新 token，請稍後再試"
            (some (retryMark c)))) ::
          rest.map (fun c' =>
            (c', Settle.rejected (mkUnauthorizedError "未授權，請重新登入" (some c'))))) := by
  refine ⟨drainGo_settled_fst jp now transport q s, ?_, ?_⟩
  · have h := congrArg List.length (drainGo_settled_fst jp now transport q s)
    simpa using h
  · intro hr hl c rest hq
    subst hq
    rw [drainGo_refreshing jp now transport c rest s hr hl]

/-- Witness for C7: in the program's drain of [D,E], D's handle alone
receives the in-flight-refresh failure, E's handle alone receives the
Unauthorized rejection, and the settlements project back to the queue in
order. -/
theorem C7_drain_isolation_witness :
    (drainGo jpNoParse 0 instOkAll [cfgD, cfgE]
      { isRefreshing := true }).2.2.map Prod.fst = [cfgD, cfgE] ∧
    (drainGo jpNoParse 0 instOkAll [cfgD, cfgE] { isRefreshing := true }).2.2 =
      [(cfgD, Settle.rejected (mkIsRefreshingTokenError "正在刷新 token，請稍後再試"
          (some (retryMark cfgD)))),
       (cfgE, Settle.rejected (mkUnauthorizedError "未授權，請重新登入" (some cfgE)))] :=
  ⟨(C7_drain_isolation jpNoParse 0 instOkAll [cfgD, cfgE] { isRefreshing := true }).1,
   (C7_drain_isolation jpNoParse 0 instOkAll [cfgD, cfgE]
      { isRefreshing := true }).2.2 rfl rfl cfgD [cfgE] rfl⟩

/-- Counterexample to C7 as stated: in the program's drain of [D,E], the
first entry's replay failure prevents E from ever being dispatched — E's
handle is settled (rejected) without a replay. -/
theorem C7_drain_isolation_counterexample :
    (drainGo jpNoParse 0 instOkAll [cfgD, cfgE]
      { isRefreshing := true }).2.1 = [retryMark cfgD] ∧
    retryMark cfgE ∉ (drainGo jpNoParse 0 instOkAll [cfgD, cfgE]
      { isRefreshing := true }).2.1 ∧
    (drainGo jpNoParse 0 instOkAll [cfgD, cfgE]
      { isRefreshing := true }).2.2.length = 2 := by
  decide

/-- The rate-limit-exceeded branch of the 401 trigger (source lines
173–179), field by field: the network call is skipped, credentials are
cleared, the counter and window reset, one message is shown for an
unhandled error, the router lands on the login page, the **triggering**
request is rejected with a fresh `UnauthorizedError` — and the queue, the
settlements and the `isRefreshing` flag are left untouched. -/
theorem trigger401_ratelimited (now : Nat) (e : ErrObj) (s : SysState)
    (hwin : now - s.lastResetTime < RESET_INTERVAL)
    (hmax : MAX_REFRESH_ATTEMPTS ≤ s.refreshAttempts) :
    (trigger401 now e s).2 = .reject (mkUnauthorizedError "操作過於頻繁，請重新登入" none) ∧
    (trigger401 now e s).1.refreshCalls = s.refreshCalls ∧
    (trigger401 now e s).1.queue = s.queue ∧
    (trigger401 now e s).1.isRefreshing = s.isRefreshing ∧
    (trigger401 now e s).1.settled = s.settled ∧
    (trigger401 now e s).1.refreshAttempts = 0 ∧
    (trigger401 now e s).1.lastResetTime = now ∧
    (trigger401 now e s).1.isLogout = true ∧
    (trigger401 now e s).1.currentPath = "/login" ∧
    cookieGet ACCESS_TOKEN (trigger401 now e s).1.cookies = none ∧
    cookieGet REFRESH_TOKEN (trigger401 now e s).1.cookies = none ∧
    cookieGet TOKEN (trigger401 now e s).1.cookies = none ∧
    (e.handled = false →
      (trigger401 now e s).1.messages.length = s.messages.length + 1) := by
  have hcr : checkAndResetCounter now s = s := checkAndResetCounter_in_window now s hwin
  have hover : MAX_REFRESH_ATTEMPTS < (checkAndResetCounter now s).refreshAttempts + 1 := by
    rw [hcr]; omega
  rw [trigger401_over now e s hover, hcr]
  obtain ⟨f1, f2, f3, f4, f5, f6, f7, f8, f9⟩ :=
    resetAuthS_fields (some e) { s with refreshAttempts := 0, lastResetTime := now }
  obtain ⟨c1, c2, c3⟩ :=
    resetAuthS_clears (some e) { s with refreshAttempts := 0, lastResetTime := now }
  refine ⟨rfl, ?_, ?_, ?_, ?_, ?_, ?_, ?_, ?_, c1, c2, c3, ?_⟩
  · rw [f3]
  · rw [f1]
  · rw [f2]
  · rw [f7]
  · rw [f4]
  · rw [f5]
  · exact f9
  · exact f8
  · intro hh
    exact resetAuthS_messages_unhandled e { s with refreshAttempts := 0, lastResetTime := now } hh

/-- Claim C3 evaluated against the code (code bug).  The coordinator
invokes `get`, `set` and `remove` on the credential-store module it
imports, but `src/utils/cookies.js` exports only `get` and `remove`.
Consequently, running the refresh-success path (queue `[A]`, fresh tokens
in the response headers) persists **nothing** — the `Cookies.set` call
throws `TypeError`, the `catch` clears the old credentials instead — and
no queued entry is ever replayed: the queue is rejected with the
`TypeError`. -/
theorem C3_persist_before_replay_code_bug :
    ("set" ∈ coordinatorCookieOps ∧ "set" ∉ cookiesModuleExports) ∧
    cookieGet ACCESS_TOKEN
      (runRefreshCycle srcCookieModule jpNoParse 0 instOkAll
        (.success (some "newAccess") (some "newRefresh"))
        { queue := [cfgA], isRefreshing := true,
          cookies := [(ACCESS_TOKEN, "oldAccess"), (REFRESH_TOKEN, "oldRefresh"), (TOKEN, "token")] }).cookies
      = none ∧
    (runRefreshCycle srcCookieModule jpNoParse 0 instOkAll
        (.success (some "newAccess") (some "newRefresh"))
        { queue := [cfgA], isRefreshing := true,
          cookies := [(ACCESS_TOKEN, "oldAccess"), (REFRESH_TOKEN, "oldRefresh"), (TOKEN, "token")] }).dispatched
      = [] ∧
    (runRefreshCycle srcCookieModule jpNoParse 0 instOkAll
        (.success (some "newAccess") (some "newRefresh"))
        { queue := [cfgA], isRefreshing := true,
          cookies := [(ACCESS_TOKEN, "oldAccess"), (REFRESH_TOKEN, "oldRefresh"), (TOKEN, "token")] }).settled
      = [(cfgA, Settle.rejected typeErrorCookiesSet)] := by
  decide

/-- Claim C4.  With ceiling 5 and window 60 000 ms: (a) for every
sequence of refresh triggers whose first six fall inside one window
(counter fresh at window start), the first five return pending handles
and the 6th forces logout — rejected with the too-frequent
`UnauthorizedError` — without any refresh transport call; (b) every
trigger occurring 60 000 ms or more after the window start resets the
counter before incrementing (counter 1, window restarted at `now`) and
performs a normal refresh attempt (pending handle; a transport call is
issued exactly when the state was `Idle`). -/
theorem C4_rate_limiter_arithmetic :
    (∀ (ts : List (Nat × ErrObj)) (t6 : Nat) (e6 : ErrObj) (s : SysState),
      s.refreshAttempts = 0 → ts.length = 5 →
      (∀ p ∈ ts, p.1 - s.lastResetTime < RESET_INTERVAL) →
      t6 - s.lastResetTime < RESET_INTERVAL →
      (∀ o ∈ (trigger401Run ts s).2, o = HandlerOut.pendingQueue) ∧
      (trigger401 t6 e6 (trigger401Run ts s).1).2 =
        .reject (mkUnauthorizedError "操作過於頻繁，請重新登入" none) ∧
      (trigger401 t6 e6 (trigger401Run ts s).1).1.refreshCalls =
        (trigger401Run ts s).1.refreshCalls) ∧
    (∀ (now : Nat) (e : ErrObj) (s : SysState),
      s.lastResetTime + RESET_INTERVAL ≤ now →
      (trigger401 now e s).1.refreshAttempts = 1 ∧
      (trigger401 now e s).1.lastResetTime = now ∧
      (trigger401 now e s).2 = HandlerOut.pendingQueue ∧
      (s.isRefreshing = false →
        (trigger401 now e s).1.refreshCalls = s.refreshCalls + 1)) := by
  constructor
  · intro ts t6 e6 s h0 hlen hwin hw6
    obtain ⟨r1, r2, r3⟩ := trigger401Run_in_window ts s hwin (by rw [h0, hlen]; decide)
    have hw6' : t6 - (trigger401Run ts s).1.lastResetTime < RESET_INTERVAL := by
      rw [r2]; exact hw6
    have hmax : MAX_REFRESH_ATTEMPTS ≤ (trigger401Run ts s).1.refreshAttempts := by
      rw [r1, h0, hlen]
      decide
    obtain ⟨o1, o2, _⟩ := trigger401_ratelimited t6 e6 (trigger401Run ts s).1 hw6' hmax
    exact ⟨r3, o1, o2⟩
  · intro now e s h
    have hcr : checkAndResetCounter now s =
        { s with refreshAttempts := 0, lastResetTime := now } := by
      unfold checkAndResetCounter
      rw [if_pos (by omega)]
    have h1 : (checkAndResetCounter now s).refreshAttempts + 1 ≤ MAX_REFRESH_ATTEMPTS := by
      rw [hcr]
      simp [MAX_REFRESH_ATTEMPTS]
    obtain ⟨o1, o2, o3, _, a1, a2, _⟩ := trigger401_under_fields now e s h1
    refine ⟨?_, ?_, o1, ?_⟩
    · rw [a1, hcr]
    · rw [a2, hcr]
    · intro hidle
      rw [o3, hidle]
      simp

/-- The five in-window trigger times used by the C4 witness. -/
def tsW : List (Nat × ErrObj) :=
  [(1, err401raw), (2, err401raw), (3, err401raw), (4, err401raw), (5, err401raw)]

/-- The elapsed-window starting state used by the C4 witness. -/
def sC4b : SysState := { refreshAttempts := 3, lastResetTime := 0 }

/-- Witness for C4: six in-window triggers from a fresh state — five
pending, the 6th a forced logout with no transport call — and a trigger
at 70 000 ms on a stale window — counter reset to 1 and a refresh call
issued. -/
theorem C4_rate_limiter_arithmetic_witness :
    ((∀ o ∈ (trigger401Run tsW ({} : SysState)).2, o = HandlerOut.pendingQueue) ∧
     (trigger401 6 err401raw (trigger401Run tsW ({} : SysState)).1).2 =
       .reject (mkUnauthorizedError "操作過於頻繁，請重新登入" none) ∧
     (trigger401 6 err401raw (trigger401Run tsW ({} : SysState)).1).1.refreshCalls =
       (trigger401Run tsW ({} : SysState)).1.refreshCalls) ∧
    ((trigger401 70000 err401raw sC4b).1.refreshAttempts = 1 ∧
     (trigger401 70000 err401raw sC4b).1.lastResetTime = 70000 ∧
     (trigger401 70000 err401raw sC4b).2 = HandlerOut.pendingQueue ∧
     (trigger401 70000 err401raw sC4b).1.refreshCalls = sC4b.refreshCalls + 1) := by
  constructor
  · exact C4_rate_limiter_arithmetic.1 tsW 6 err401raw {} (by decide) (by decide)
      (by decide) (by decide)
  · have h := C4_rate_limiter_arithmetic.2 70000 err401raw sC4b (by decide)
    exact ⟨h.1, h.2.1, h.2.2.1, h.2.2.2 (by decide)⟩

/-- Claim C5, amended.  Whenever a refresh trigger exceeds the attempt
ceiling, the coordinator skips the refresh network call, clears the
stored credentials, resets the counter and window, marks logout, shows
one message, lands on the login page, and rejects the **triggering**
request with an Unauthorized failure — but the entries already in the
failed-request queue are *not* rejected by this branch (no settlement
happens; they stay queued for the in-flight cycle), and the refresh flag
is left unchanged, so the state is `Idle` afterwards only if it already
was.  (The claim's "rejects every entry currently in the queue" and "the
refresh state is Idle afterwards" fail: see the counterexample.) -/
theorem C5_forced_logout (now : Nat) (e : ErrObj) (s : SysState)
    (hwin : now - s.lastResetTime < RESET_INTERVAL)
    (hmax : MAX_REFRESH_ATTEMPTS ≤ s.refreshAttempts)
    (hh : e.handled = false) :
    (trigger401 now e s).1.refreshCalls = s.refreshCalls ∧
    cookieGet ACCESS_TOKEN (trigger401 now e s).1.cookies = none ∧
    cookieGet REFRESH_TOKEN (trigger401 now e s).1.cookies = none ∧
    cookieGet TOKEN (trigger401 now e s).1.cookies = none ∧
    (trigger401 now e s).2 = .reject (mkUnauthorizedError "操作過於頻繁，請重新登入" none) ∧
    (trigger401 now e s).1.queue = s.queue ∧
    (trigger401 now e s).1.settled = s.settled ∧
    (trigger401 now e s).1.isRefreshing = s.isRefreshing ∧
    (trigger401 now e s).1.refreshAttempts = 0 ∧
    (trigger401 now e s).1.lastResetTime = now ∧
    (trigger401 now e s).1.isLogout = true ∧
    (trigger401 now e s).1.currentPath = "/login" ∧
    (trigger401 now e s).1.messages.length = s.messages.length + 1 := by
  obtain ⟨o1, o2, o3, o4, o5, o6, o7, o8, o9, c1, c2, c3, hm⟩ :=
    trigger401_ratelimited now e s hwin hmax
  exact ⟨o2, c1, c2, c3, o1, o3, o5, o4, o6, o7, o8, o9, hm hh⟩

/-- The starting state for the C5 witness: counter at the ceiling, some
credentials present, browsing away from the login page. -/
def sC5w : SysState :=
  { refreshAttempts := 5, currentPath := "/dashboard",
    cookies := [(ACCESS_TOKEN, "a1"), (REFRESH_TOKEN, "r1"), (TOKEN, "token")] }

/-- Witness for C5: a 6th-in-window trigger skips the transport call,
clears credentials, rejects the triggering request, and shows one
message. -/
theorem C5_forced_logout_witness :
    (100 - sC5w.lastResetTime < RESET_INTERVAL ∧
     MAX_REFRESH_ATTEMPTS ≤ sC5w.refreshAttempts ∧ err401raw.handled = false) ∧
    (trigger401 100 err401raw sC5w).1.refreshCalls = sC5w.refreshCalls ∧
    cookieGet ACCESS_TOKEN (trigger401 100 err401raw sC5w).1.cookies = none ∧
    (trigger401 100 err401raw sC5w).2 =
      .reject (mkUnauthorizedError "操作過於頻繁，請重新登入" none) ∧
    (trigger401 100 err401raw sC5w).1.messages.length = sC5w.messages.length + 1 :=
  ⟨⟨by decide, by decide, by decide⟩,
   (C5_forced_logout 100 err401raw sC5w (by decide) (by decide) (by decide)).1,
   (C5_forced_logout 100 err401raw sC5w (by decide) (by decide) (by decide)).2.1,
   (C5_forced_logout 100 err401raw sC5w (by decide) (by decide) (by decide)).2.2.2.2.1,
   (C5_forced_logout 100 err401raw sC5w (by decide) (by decide) (by decide)).2.2.2.2.2.2.2.2.2.2.2.2⟩

/-- A reachable rate-limit-exceeded situation with a refresh in flight
and an entry waiting in the queue. -/
def sC5 : SysState := { queue := [cfgB], isRefreshing := true, refreshAttempts := 5 }

/-- Counterexample to C5 as stated: a trigger that exceeds the ceiling
while an entry B sits in the queue and a refresh is in flight leaves B
queued and unsettled (it is *not* rejected) and leaves the refresh state
`Refreshing`, not `Idle`. -/
theorem C5_forced_logout_counterexample :
    MAX_REFRESH_ATTEMPTS ≤ sC5.refreshAttempts ∧
    (trigger401 100 err401raw sC5).1.queue = [cfgB] ∧
    (trigger401 100 err401raw sC5).1.settled = [] ∧
    (trigger401 100 err401raw sC5).1.isRefreshing = true := by
  decide

/-- Claim C6.  After any refresh cycle completes — success (with or
without a working credential-store `set`), or transport failure — the
refresh state is `Idle` and the failed-request queue is empty; and a
rate-limited trigger taken from `Idle` with an empty queue leaves the
state `Idle` with an empty queue. -/
theorem C6_post_cycle_invariant :
    (∀ (cm : CookieModule) (jp : String → JsParse) (now : Nat)
       (transport : ConfigF → ReplayRes) (outcome : RefreshOutcome) (s : SysState),
      (runRefreshCycle cm jp now transport outcome s).isRefreshing = false ∧
      (runRefreshCycle cm jp now transport outcome s).queue = []) ∧
    (∀ (now : Nat) (e : ErrObj) (s : SysState),
      s.queue = [] → s.isRefreshing = false →
      now - s.lastResetTime < RESET_INTERVAL → MAX_REFRESH_ATTEMPTS ≤ s.refreshAttempts →
      (trigger401 now e s).1.queue = [] ∧ (trigger401 now e s).1.isRefreshing = false) := by
  constructor
  · intro cm jp now transport outcome s
    cases outcome with
    | failure err => exact ⟨rfl, rfl⟩
    | success a r =>
      cases hset : cm.set with
      | none =>
        unfold runRefreshCycle
        dsimp only
        rw [hset]
        exact ⟨rfl, rfl⟩
      | some f =>
        unfold runRefreshCycle
        dsimp only
        rw [hset]
        exact ⟨rfl, rfl⟩
  · intro now e s hq hr hwin hmax
    obtain ⟨_, _, q3, q4, _⟩ := trigger401_ratelimited now e s hwin hmax
    exact ⟨by rw [q3, hq], by rw [q4, hr]⟩

/-- Witness for C6: a concrete completed success cycle (working `set`), a
concrete failed cycle, and a concrete rate-limited trigger from
`Idle`/empty, all ending `Idle` with an empty queue. -/
theorem C6_post_cycle_invariant_witness :
    ((runRefreshCycle fullCookieModule jpNoParse 0 instOkAll (.success (some "a2") (some "r2"))
        { queue := [cfgA, cfgB], isRefreshing := true }).isRefreshing = false ∧
     (runRefreshCycle fullCookieModule jpNoParse 0 instOkAll (.success (some "a2") (some "r2"))
        { queue := [cfgA, cfgB], isRefreshing := true }).queue = []) ∧
    ((runRefreshCycle srcCookieModule jpNoParse 0 instOkAll (.failure err401raw)
        { queue := [cfgC], isRefreshing := true }).isRefreshing = false ∧
     (runRefreshCycle srcCookieModule jpNoParse 0 instOkAll (.failure err401raw)
        { queue := [cfgC], isRefreshing := true }).queue = []) ∧
    ((trigger401 100 err401raw ({ refreshAttempts := 5 } : SysState)).1.queue = [] ∧
     (trigger401 100 err401raw ({ refreshAttempts := 5 } : SysState)).1.isRefreshing = false) :=
  ⟨C6_post_cycle_invariant.1 fullCookieModule jpNoParse 0 instOkAll
     (.success (some "a2") (some "r2")) { queue := [cfgA, cfgB], isRefreshing := true },
   C6_post_cycle_invariant.1 srcCookieModule jpNoParse 0 instOkAll (.failure err401raw)
     { queue := [cfgC], isRefreshing := true },
   C6_post_cycle_invariant.2 100 err401raw { refreshAttempts := 5 }
     (by decide) (by decide) (by decide) (by decide)⟩

/-- Claim C8.  A request descriptor already marked `_internalRetry` whose
replay fails again is never re-enqueued: the interceptor takes the
retry branch first (before the enqueue branches), rejects the (enriched)
failure straight back to the original caller, and leaves the
failed-request queue exactly as it was. -/
theorem C8_loop_prevention (jp : String → JsParse) (now : Nat) (e : ErrObj)
    (s : SysState) (c : ConfigF) (hc : e.config = some c)
    (hr : c.internalRetry = true) :
    (responseErrorHandler jp now e s).2 =
      .reject (parseBlobError jp (attachTraceId e)) ∧
    (responseErrorHandler jp now e s).1.queue = s.queue := by
  rw [handler_retry jp now e s c hc hr]
  exact ⟨rfl, (resetAuthS_fields (some (parseBlobError jp (attachTraceId e))) s).1⟩

/-- A failure of a replayed (retry-marked) request. -/
def eRetry : ErrObj :=
  { message := "replay failed", response := some { status := some 500 },
    config := some (retryMark cfgA) }

/-- Witness for C8: a concrete retried failure is rejected to its caller
and the queue is untouched. -/
theorem C8_loop_prevention_witness :
    (eRetry.config = some (retryMark cfgA) ∧ (retryMark cfgA).internalRetry = true) ∧
    (responseErrorHandler jpNoParse 0 eRetry ({} : SysState)).2 =
      .reject (parseBlobError jpNoParse (attachTraceId eRetry)) ∧
    (responseErrorHandler jpNoParse 0 eRetry ({} : SysState)).1.queue =
      ({} : SysState).queue :=
  ⟨⟨rfl, rfl⟩, C8_loop_prevention jpNoParse 0 eRetry {} (retryMark cfgA) rfl rfl⟩

/-- A handled error passes through `errorHandler` untouched: nothing is
displayed and the flag is not written again. -/
theorem errorHandler_handled (e : ErrObj) (m : List String) (h : e.handled = true) :
    errorHandler e false m = (e, m) := by
  unfold errorHandler
  rw [h]
  simp

/-- An unhandled error is displayed exactly once and its flag set. -/
theorem errorHandler_unhandled (e : ErrObj) (m : List String) (h : e.handled = false) :
    (errorHandler e false m).1.handled = true ∧
    (errorHandler e false m).2.length = m.length + 1 := by
  unfold errorHandler
  rw [h]
  simp

/-- Iterating `errorHandler` on a handled error is the identity. -/
theorem iterateEH_handled (n : Nat) (e : ErrObj) (m : List String)
    (h : e.handled = true) : iterateEH n e m = (e, m) := by
  induction n with
  | zero => rfl
  | succ k ih =>
    unfold iterateEH
    dsimp only
    rw [errorHandler_handled e m h]
    exact ih

/-- However many times the same failure flows through `errorHandler`, at
most one display call reaches the notification sink. -/
theorem iterateEH_at_most_one (n : Nat) (e : ErrObj) (m : List String) :
    (iterateEH n e m).2.length ≤ m.length + 1 := by
  cases n with
  | zero => simp [iterateEH]
  | succ k =>
    by_cases h : e.handled = true
    · rw [iterateEH_handled (k + 1) e m h]
      simp
    · have hf : e.handled = false := by
        revert h
        cases e.handled <;> simp
      unfold iterateEH
      dsimp only
      obtain ⟨h1, h2⟩ := errorHandler_unhandled e m hf
      rw [iterateEH_handled k _ _ h1]
      rw [h2]

/-- Claim C9.  The `handled` discipline: a flag already set is never set
again and suppresses display; an unset flag is set exactly at the display
(or silent terminal processing) point with exactly one display; iterating
the handler any number of times produces at most one display per failure;
`BaseHttpError` failures carry `handled = true` from construction.  And
both forced-logout paths — rate-limit exceeded and refresh-call
failure — clear the credentials, show exactly one user-facing message,
and land on the login entry point. -/
theorem C9_single_notification :
    (∀ (e : ErrObj) (m : List String), e.handled = true →
      errorHandler e false m = (e, m)) ∧
    (∀ (e : ErrObj) (m : List String), e.handled = false →
      (errorHandler e false m).1.handled = true ∧
      (errorHandler e false m).2.length = m.length + 1) ∧
    (∀ (n : Nat) (e : ErrObj) (m : List String),
      (iterateEH n e m).2.length ≤ m.length + 1) ∧
    (∀ (msg nm : String) (c : Option ConfigF),
      (mkBaseHttpError msg nm c).handled = true) ∧
    (∀ (now : Nat) (e : ErrObj) (s : SysState), e.handled = false →
      now - s.lastResetTime < RESET_INTERVAL →
      MAX_REFRESH_ATTEMPTS ≤ s.refreshAttempts →
      (trigger401 now e s).1.messages.length = s.messages.length + 1 ∧
      (trigger401 now e s).1.currentPath = "/login" ∧
      cookieGet ACCESS_TOKEN (trigger401 now e s).1.cookies = none) ∧
    (∀ (cm : CookieModule) (jp : String → JsParse) (now : Nat)
       (transport : ConfigF → ReplayRes) (err : ErrObj) (s : SysState),
      err.handled = false →
      (runRefreshCycle cm jp now transport (.failure err) s).messages.length =
        s.messages.length + 1 ∧
      (runRefreshCycle cm jp now transport (.failure err) s).currentPath = "/login" ∧
      cookieGet ACCESS_TOKEN
        (runRefreshCycle cm jp now transport (.failure err) s).cookies = none) := by
  refine ⟨errorHandler_handled, errorHandler_unhandled, iterateEH_at_most_one,
    fun _ _ _ => rfl, ?_, ?_⟩
  · intro now e s hh hwin hmax
    obtain ⟨_, _, _, _, _, _, _, _, o9, c1, _, _, hm⟩ :=
      trigger401_ratelimited now e s hwin hmax
    exact ⟨hm hh, o9, c1⟩
  · intro cm jp now transport err s hh
    refine ⟨?_, ?_, ?_⟩
    · show (resetAuthS (some err) s).messages.length = s.messages.length + 1
      exact resetAuthS_messages_unhandled err s hh
    · show (resetAuthS (some err) s).currentPath = "/login"
      exact (resetAuthS_fields (some err) s).2.2.2.2.2.2.2.1
    · show cookieGet ACCESS_TOKEN (resetAuthS (some err) s).cookies = none
      exact (resetAuthS_clears (some err) s).1

/-- The rate-limited state used by the C9 witness. -/
def sC9 : SysState :=
  { refreshAttempts := 5, currentPath := "/home",
    cookies := [(ACCESS_TOKEN, "tok"), (REFRESH_TOKEN, "ref")] }

/-- A refresh-transport failure (raw network error, unhandled). -/
def errRefreshFail : ErrObj := { message := "Network Error" }

/-- Witness for C9: a handled failure displays nothing; an unhandled one
displays once; three passes display at most once; a constructed
`BaseHttpError` is born handled; both concrete forced-logout paths show
exactly one message, clear the access credential and land on `/login`. -/
theorem C9_single_notification_witness :
    errorHandler (mkBaseHttpError "m" "E" none) false [] =
      (mkBaseHttpError "m" "E" none, []) ∧
    ((errorHandler err401raw false []).1.handled = true ∧
     (errorHandler err401raw false []).2.length = List.length ([] : List String) + 1) ∧
    (iterateEH 3 err401raw []).2.length ≤ List.length ([] : List String) + 1 ∧
    (mkBaseHttpError "m2" "E2" none).handled = true ∧
    ((trigger401 50 err401raw sC9).1.messages.length = sC9.messages.length + 1 ∧
     (trigger401 50 err401raw sC9).1.currentPath = "/login" ∧
     cookieGet ACCESS_TOKEN (trigger401 50 err401raw sC9).1.cookies = none) ∧
    ((runRefreshCycle fullCookieModule jpNoParse 0 instOkAll (.failure errRefreshFail) sC5).messages.length =
       sC5.messages.length + 1 ∧
     (runRefreshCycle fullCookieModule jpNoParse 0 instOkAll (.failure errRefreshFail) sC5).currentPath =
       "/login" ∧
     cookieGet ACCESS_TOKEN
       (runRefreshCycle fullCookieModule jpNoParse 0 instOkAll (.failure errRefreshFail) sC5).cookies = none) :=
  ⟨C9_single_notification.1 (mkBaseHttpError "m" "E" none) [] (by decide),
   C9_single_notification.2.1 err401raw [] (by decide),
   C9_single_notification.2.2.1 3 err401raw [],
   C9_single_notification.2.2.2.1 "m2" "E2" none,
   C9_single_notification.2.2.2.2.1 50 err401raw sC9 (by decide) (by decide) (by decide),
   C9_single_notification.2.2.2.2.2 fullCookieModule jpNoParse 0 instOkAll errRefreshFail sC5 (by decide)⟩

/-- Reassociation of the trace-id suffix. -/
theorem append_na (t : String) : t ++ " (" ++ "N/A" ++ ")" = t ++ " (N/A)" := by
  rw [String.append_assoc, String.append_assoc]
  have h : " (" ++ ("N/A" ++ ")") = " (N/A)" := by decide
  rw [h]

/-- Claim C10, amended.  Binary error-body decoding: (i) a body whose
text parses to an object with message "bad" and traceId "t1" yields a
failure carrying message "bad (t1)" and trace id "t1"; (ii) an **empty**
body yields the generic fallback — the failure's own prior message, or
the fixed unknown-error text — with trace id "N/A"; (iii) a non-empty
**unparseable** body yields the *raw body text* as the message (not a
generic message — see the counterexample) with trace id "N/A"; (iv) for
every blob body and every parse outcome, decoding returns normally with
a trace id attached — exceptions inside (unreadable body, non-object
parse) degrade to the fixed generic Blob-error result rather than
propagating. -/
theorem C10_blob_decoding (jp : String → JsParse) (e : ErrObj) (resp : RespF) :
    (∀ (t : String) (b : ErrBody),
      e.response = some resp → resp.data = .blob (some t) →
      jp t = .obj b → b.message = some "bad" → b.traceId = some "t1" →
      (parseBlobError jp e).message = "bad (t1)" ∧
      (parseBlobError jp e).traceId = some "t1") ∧
    (e.response = some resp → resp.data = .blob (some "") → jp "" = .parseError →
      (parseBlobError jp e).traceId = some "N/A" ∧
      (parseBlobError jp e).message = (jsTruthyS e.message).getD "未知錯誤" ++ " (N/A)") ∧
    (∀ t : String,
      e.response = some resp → resp.data = .blob (some t) →
      jp t = .parseError → t ≠ "" →
      (parseBlobError jp e).message = t ++ " (N/A)" ∧
      (parseBlobError jp e).traceId = some "N/A") ∧
    (∀ rt : Option String,
      e.response = some resp → resp.data = .blob rt →
      ((parseBlobError jp e).traceId).isSome = true) := by
  refine ⟨?_, ?_, ?_, ?_⟩
  · intro t b hresp hdata hjp hm ht
    simp [parseBlobError, parseBlobInner, hresp, hdata, hjp, hm, ht, jsTruthy]
    decide
  · intro hresp hdata hjp
    constructor
    · simp [parseBlobError, parseBlobInner, hresp, hdata, hjp, jsTruthy]
    · simp [parseBlobError, parseBlobInner, hresp, hdata, hjp, jsTruthy]
      cases h : jsTruthyS e.message with
      | none =>
        simp [h]
        all_goals decide
      | some m =>
        simp [h]
        all_goals exact append_na m
  · intro t hresp hdata hjp hne
    constructor
    · simp [parseBlobError, parseBlobInner, hresp, hdata, hjp, jsTruthy, hne]
      exact append_na t
    · simp [parseBlobError, parseBlobInner, hresp, hdata, hjp, jsTruthy, hne]
  · intro rt hresp hdata
    unfold parseBlobError
    rw [hresp]
    dsimp only
    rw [hdata]
    dsimp only
    cases rt with
    | none => simp [parseBlobInner]
    | some t =>
      cases hjp : jp t with
      | parseError => simp [parseBlobInner, hjp]
      | obj b => simp [parseBlobInner, hjp]
      | nonObject => simp [parseBlobInner, hjp]

/-- The JSON text `{"message":"bad","traceId":"t1"}`. -/
def jsonBodyText : String := "\x7b\"message\":\"bad\",\"traceId\":\"t1\"\x7d"

/-- A `JSON.parse` oracle that parses `jsonBodyText` to its object and
fails on everything else. -/
def jpW : String → JsParse :=
  fun t => if t = jsonBodyText then .obj { message := some "bad", traceId := some "t1" }
           else .parseError

/-- A failure whose blob body reads as the good JSON text. -/
def eGoodBlob : ErrObj :=
  { message := "Request failed",
    response := some { status := some 500, data := .blob (some jsonBodyText) } }

/-- A failure whose blob body reads as the empty string. -/
def eEmptyBlob : ErrObj :=
  { message := "Request failed",
    response := some { status := some 500, data := .blob (some "") } }

/-- A failure whose blob body reads as unparseable non-empty text. -/
def eUnparse : ErrObj :=
  { message := "Request failed",
    response := some { status := some 502, data := .blob (some "upstream html") } }

/-- A failure whose blob body cannot even be read. -/
def eReadFail : ErrObj :=
  { message := "Request failed",
    response := some { status := some 500, data := .blob none } }

/-- Witness for C10: the four decode paths at concrete inputs. -/
theorem C10_blob_decoding_witness :
    ((parseBlobError jpW eGoodBlob).message = "bad (t1)" ∧
     (parseBlobError jpW eGoodBlob).traceId = some "t1") ∧
    ((parseBlobError jpW eEmptyBlob).traceId = some "N/A" ∧
     (parseBlobError jpW eEmptyBlob).message =
       (jsTruthyS eEmptyBlob.message).getD "未知錯誤" ++ " (N/A)") ∧
    ((parseBlobError jpW eUnparse).message = "upstream html" ++ " (N/A)" ∧
     (parseBlobError jpW eUnparse).traceId = some "N/A") ∧
    ((parseBlobError jpW eReadFail).traceId).isSome = true :=
  ⟨(C10_blob_decoding jpW eGoodBlob
      { status := some 500, data := .blob (some jsonBodyText) }).1
      jsonBodyText { message := some "bad", traceId := some "t1" }
      rfl rfl (by decide) rfl rfl,
   (C10_blob_decoding jpW eEmptyBlob
      { status := some 500, data := .blob (some "") }).2.1 rfl rfl (by decide),
   (C10_blob_decoding jpW eUnparse
      { status := some 502, data := .blob (some "upstream html") }).2.2.1
      "upstream html" rfl rfl (by decide) (by decide),
   (C10_blob_decoding jpW eReadFail
      { status := some 500, data := .blob none }).2.2.2 none rfl rfl⟩

/-- A failure whose blob body reads "garbage". -/
def eBodyG : ErrObj :=
  { message := "Request failed",
    response := some { status := some 500, data := .blob (some "garbage") } }

/-- A failure identical to `eBodyG` except the body reads "junk". -/
def eBodyJ : ErrObj :=
  { message := "Request failed",
    response := some { status := some 500, data := .blob (some "junk") } }

/-- Counterexample to C10 as stated: two unparseable non-empty bodies
("garbage" and "junk") on otherwise identical failures decode to two
*different* messages, each carrying the raw body text — so an
unparseable body does **not** yield a generic (body-independent) message;
in particular neither equals the empty-body fallback "Request failed
(N/A)" nor the fixed Blob-error text. -/
theorem C10_blob_decoding_counterexample :
    (parseBlobError jpNoParse eBodyG).message = "garbage (N/A)" ∧
    (parseBlobError jpNoParse eBodyJ).message = "junk (N/A)" ∧
    (parseBlobError jpNoParse eBodyG).message ≠ (parseBlobError jpNoParse eBodyJ).message ∧
    (parseBlobError jpNoParse eBodyG).message ≠ "Request failed (N/A)" ∧
    (parseBlobError jpNoParse eBodyG).message ≠ "未知的 Blob 錯誤 (N/A)" := by
  decide
